import Mathlib

/-!
Shallow embedding of the audiophile-server product catalog service.

The repository is a NestJS + TypeORM CRUD service over one `products`
table.  We embed:

* the JSON request body and the global `ValidationPipe`
  (`transform: true, whitelist: true, forbidNonWhitelisted: true`)
  applied to the class-validator decorators of `CreateProductDto`
  (`@IsString @MinLength(6) @MaxLength(32)` on `title`,
  `@IsString @MinLength(32) @MaxLength(1024)` on `description`);
* `UpdateProductDto`, which in the source is
  `class UpdateProductDto extends CreateProductDto {}` — it inherits the
  decorators unchanged, so both fields stay required;
* the `Product` entity (`id` generated, `created_at` set on insert,
  `updated_at` refreshed on every save) and the five operations of
  `ProductsService` (`getProducts`, `getProduct`, `createProduct`,
  `updateProduct`, `deleteProduct`), with the TypeORM repository
  modelled as a list of rows plus a fresh-id counter and the clock
  passed explicitly as a natural number.
-/

namespace Audiophile

/-- A JSON value as it appears in a request body field. -/
inductive JValue where
  | str (s : String)
  | num (n : Int)
  | boolean (b : Bool)
  | null
deriving DecidableEq, Repr

/-- A parsed JSON request body: field names with their values. -/
abbrev RawBody := List (String × JValue)

/-- Look up a field of the body by name (first occurrence). -/
def getField (body : RawBody) (k : String) : Option JValue :=
  (body.find? (fun p => p.1 == k)).map (fun p => p.2)

/-- Reasons a field can fail validation, mirroring class-validator
constraints (`IsString`, `MinLength`, `MaxLength`) plus the
`forbidNonWhitelisted` rejection of the global ValidationPipe. -/
inductive VReason where
  | wrongType
  | tooShort
  | tooLong
  | missing
  | unknownProperty
deriving DecidableEq, Repr

/-- Errors surfaced by the service layer: a 400 validation failure from
the ValidationPipe, or the 404 `HttpException("Product not found")`. -/
inductive Err where
  | validation (errs : List (String × VReason))
  | notFound
deriving DecidableEq, Repr

/-- Fields declared on `CreateProductDto` (and hence on
`UpdateProductDto`); the whitelist used by the ValidationPipe. -/
def allowedFields : List String := ["title", "description"]

/-- `whitelist: true, forbidNonWhitelisted: true`: every body property
not declared on the DTO produces an error. -/
def whitelistErrors (body : RawBody) : List (String × VReason) :=
  (body.filter (fun p => !(allowedFields.contains p.1))).map
    (fun p => (p.1, VReason.unknownProperty))

/-- Validation of one decorated string field
(`@IsString @MinLength(lo) @MaxLength(hi)`): a missing or non-string
value fails `IsString`; a string is checked against both bounds. -/
def validateStringField (body : RawBody) (name : String) (lo hi : Nat) :
    List (String × VReason) :=
  match getField body name with
  | some (JValue.str s) =>
      (if s.length < lo then [(name, VReason.tooShort)] else []) ++
      (if hi < s.length then [(name, VReason.tooLong)] else [])
  | some _ => [(name, VReason.wrongType)]
  | none => [(name, VReason.missing)]

/-- All validation errors the ValidationPipe reports for a body checked
against `CreateProductDto`'s decorators. -/
def createDtoErrors (body : RawBody) : List (String × VReason) :=
  whitelistErrors body ++
  validateStringField body "title" 6 32 ++
  validateStringField body "description" 32 1024

/-- `CreateProductDto`: both fields required, `title` 6–32 chars,
`description` 32–1024 chars. -/
structure CreateProductDto where
  title : String
  description : String
deriving DecidableEq, Repr

/-- `class UpdateProductDto extends CreateProductDto {}` — the source
adds nothing and overrides nothing, so the update input shape and its
constraints are exactly those of `CreateProductDto`. -/
abbrev UpdateProductDto := CreateProductDto

/-- The global ValidationPipe applied to a POST /products body: reject
if any constraint fails, otherwise hand the typed DTO to the service. -/
def validateCreateDto (body : RawBody) : Except Err CreateProductDto :=
  if createDtoErrors body = [] then
    match getField body "title", getField body "description" with
    | some (JValue.str t), some (JValue.str d) => Except.ok ⟨t, d⟩
    | _, _ => Except.error (Err.validation (createDtoErrors body))
  else
    Except.error (Err.validation (createDtoErrors body))

/-- The ValidationPipe applied to a PUT /products/:id body.  Since
`UpdateProductDto` inherits `CreateProductDto`'s decorators without
change, this is the same check. -/
def validateUpdateDto (body : RawBody) : Except Err UpdateProductDto :=
  validateCreateDto body

/-- The `products` table row (`product.entity.ts`): generated integer
`id`, `title`, `description`, `created_at` set on insert,
`updated_at` refreshed on every save.  Timestamps are naturals. -/
structure Product where
  id : Nat
  title : String
  description : String
  created_at : Nat
  updated_at : Nat
deriving DecidableEq, Repr

/-- The TypeORM repository for `Product`: the table rows plus the next
value of the generated-id sequence. -/
structure Storage where
  rows : List Product
  nextId : Nat
deriving DecidableEq, Repr

/-- The freshly synchronized database: no rows, sequence at 1. -/
def emptyStorage : Storage := ⟨[], 1⟩

/-- `productsRepo.findOne({ where: { id } })`. -/
def findOne (s : Storage) (id : Nat) : Option Product :=
  s.rows.find? (fun p => p.id == id)

/-- `getProducts`: `productsRepo.find()` — all rows. -/
def getProducts (s : Storage) : List Product :=
  s.rows

/-- `getProduct`: find by id, throw the 404 HttpException if absent. -/
def getProduct (s : Storage) (id : Nat) : Except Err Product :=
  match findOne s id with
  | none => Except.error Err.notFound
  | some p => Except.ok p

/-- `createProduct`: `repo.create(dto)` then `repo.save` — a new row
with the generated id, both timestamp columns stamped to the current
time, appended to the table. -/
def createProduct (s : Storage) (dto : CreateProductDto) (now : Nat) :
    Product × Storage :=
  let p : Product := ⟨s.nextId, dto.title, dto.description, now, now⟩
  (p, ⟨s.rows ++ [p], s.nextId + 1⟩)

/-- `updateProduct`: `repo.preload({ id, ...dto })` loads the row with
that id (returning nothing if absent, which the service turns into the
404) and merges the dto's properties over it; `repo.save` then writes
it back, refreshing `updated_at`.  On the not-found path nothing is
written, so the state is returned untouched. -/
def updateProduct (s : Storage) (id : Nat) (dto : UpdateProductDto)
    (now : Nat) : Except Err Product × Storage :=
  match findOne s id with
  | none => (Except.error Err.notFound, s)
  | some p =>
      let p' : Product := ⟨p.id, dto.title, dto.description, p.created_at, now⟩
      (Except.ok p', ⟨s.rows.map (fun q => if q.id == id then p' else q), s.nextId⟩)

/-- `deleteProduct`: `getProduct(id)` (so the 404 condition is exactly
Get's) then `repo.remove(post)`, which deletes that row and returns its
last known values to the caller. -/
def deleteProduct (s : Storage) (id : Nat) : Except Err Product × Storage :=
  match getProduct s id with
  | Except.error e => (Except.error e, s)
  | Except.ok p => (Except.ok p, ⟨s.rows.filter (fun q => !(q.id == id)), s.nextId⟩)

/-- GET /products: the controller passes straight to the service; the
state is read-only. -/
def listRequest (s : Storage) : List Product × Storage :=
  (getProducts s, s)

/-- GET /products/:id at the boundary; read-only. -/
def getRequest (s : Storage) (id : Nat) : Except Err Product × Storage :=
  (getProduct s id, s)

/-- POST /products at the boundary: the global ValidationPipe runs
first; only a body passing every constraint reaches the service, so a
rejected request never touches storage. -/
def createRequest (s : Storage) (body : RawBody) (now : Nat) :
    Except Err Product × Storage :=
  match validateCreateDto body with
  | Except.error e => (Except.error e, s)
  | Except.ok dto =>
      let r := createProduct s dto now
      (Except.ok r.1, r.2)

/-- PUT /products/:id at the boundary: ValidationPipe first, then the
service's preload-and-save path. -/
def updateRequest (s : Storage) (id : Nat) (body : RawBody) (now : Nat) :
    Except Err Product × Storage :=
  match validateUpdateDto body with
  | Except.error e => (Except.error e, s)
  | Except.ok dto => updateProduct s id dto now

/-- DELETE /products/:id at the boundary (no body, no validation). -/
def deleteRequest (s : Storage) (id : Nat) : Except Err Product × Storage :=
  deleteProduct s id

/-- Well-formed repository state: distinct row ids, all below the
generated-id sequence value. -/
def WF (s : Storage) : Prop :=
  (s.rows.map Product.id).Nodup ∧ ∀ p ∈ s.rows, p.id < s.nextId

/-- The per-row invariant of the data model: both length bounds hold
and `updated_at` is no earlier than `created_at`. -/
def rowOk (p : Product) : Prop :=
  6 ≤ p.title.length ∧ p.title.length ≤ 32 ∧
  32 ≤ p.description.length ∧ p.description.length ≤ 1024 ∧
  p.created_at ≤ p.updated_at

instance : DecidablePred rowOk := fun p => by
  unfold rowOk; infer_instance

/-- All persisted rows satisfy the per-row invariant. -/
def Inv (s : Storage) : Prop :=
  ∀ p ∈ s.rows, rowOk p

instance (s : Storage) : Decidable (Inv s) := by
  unfold Inv; infer_instance

instance (s : Storage) : Decidable (WF s) := by
  unfold WF; infer_instance

/-- One inbound request, as dispatched by the controller. -/
inductive Op where
  | list
  | get (id : Nat)
  | create (body : RawBody) (now : Nat)
  | update (id : Nat) (body : RawBody) (now : Nat)
  | del (id : Nat)
deriving Repr

/-- The storage state after serving one request. -/
def applyOp (s : Storage) : Op → Storage
  | Op.list => (listRequest s).2
  | Op.get id => (getRequest s id).2
  | Op.create body now => (createRequest s body now).2
  | Op.update id body now => (updateRequest s id body now).2
  | Op.del id => (deleteRequest s id).2

/-- The server clock is nondecreasing: a request's `now` is no earlier
than the creation stamp of any row already persisted. -/
def clockOk (s : Storage) : Op → Prop
  | Op.update _ _ now => ∀ p ∈ s.rows, p.created_at ≤ now
  | _ => True

/-- States reachable from the empty database by serving requests under
a nondecreasing clock. -/
inductive Reachable : Storage → Prop where
  | empty : Reachable emptyStorage
  | step {s : Storage} {op : Op} : Reachable s → clockOk s op →
      Reachable (applyOp s op)

/-- A sample description of 40 characters, inside the 32–1024 bound. -/
def descSample : String := String.mk (List.replicate 40 'a')

/-! ### Claims -/

/-- C1: the claim says every `UpdateInput` field is optional and an
input omitting a field passes validation.  On the code this is false:
`UpdateProductDto extends CreateProductDto {}` inherits the required
`IsString`/`MinLength`/`MaxLength` decorators unchanged, so a PUT body
carrying only a valid `description` is rejected by the ValidationPipe
with an error on the absent `title`. -/
theorem C1_update_missing_title_rejected :
    validateUpdateDto [("description", JValue.str descSample)] =
      Except.error (Err.validation [("title", VReason.missing)]) := by
  rfl

/-- C2: for an id with no row in storage, Get fails with NotFound,
Update fails with NotFound for every (validated) input, and Delete
fails with NotFound. -/
theorem C2_absent_id_not_found (s : Storage) (id : Nat)
    (dto : UpdateProductDto) (now : Nat) (h : findOne s id = none) :
    getProduct s id = Except.error Err.notFound ∧
    (updateProduct s id dto now).1 = Except.error Err.notFound ∧
    (deleteProduct s id).1 = Except.error Err.notFound := by
  refine ⟨?_, ?_, ?_⟩ <;> simp [getProduct, updateProduct, deleteProduct, h]

/-- C2 witness: the empty database with id 1. -/
theorem C2_absent_id_not_found_witness :
    findOne emptyStorage 1 = none ∧
    (getProduct emptyStorage 1 = Except.error Err.notFound ∧
     (updateProduct emptyStorage 1 ⟨"t", "d"⟩ 0).1 = Except.error Err.notFound ∧
     (deleteProduct emptyStorage 1).1 = Except.error Err.notFound) :=
  ⟨rfl, C2_absent_id_not_found emptyStorage 1 ⟨"t", "d"⟩ 0 rfl⟩

/-- C3: the claim says Update(P.id, {}) with the empty input succeeds.
On the code this is false: the empty body fails the inherited required
constraints of `UpdateProductDto` on both fields, so the request is
rejected by the ValidationPipe before reaching the service. -/
theorem C3_empty_update_body_rejected :
    validateUpdateDto [] =
      Except.error (Err.validation
        [("title", VReason.missing), ("description", VReason.missing)]) := by
  rfl

/-- C7: Update and Delete report NotFound under exactly the condition
under which Get reports NotFound, for every storage state, id and
input: all three funnel through the same find-by-id lookup. -/
theorem C7_not_found_conditions_agree (s : Storage) (id : Nat)
    (dto : UpdateProductDto) (now : Nat) :
    ((updateProduct s id dto now).1 = Except.error Err.notFound ↔
      getProduct s id = Except.error Err.notFound) ∧
    ((deleteProduct s id).1 = Except.error Err.notFound ↔
      getProduct s id = Except.error Err.notFound) := by
  cases h : findOne s id <;>
    simp [getProduct, updateProduct, deleteProduct, h]

/-- C10: when the id is absent, Delete fails with NotFound and both
Update and Delete leave the storage state entirely unchanged (Update
either fails validation at the boundary or hits the same NotFound path;
in every case nothing is written). -/
theorem C10_not_found_leaves_storage_unchanged (s : Storage) (id : Nat)
    (body : RawBody) (now : Nat) (h : findOne s id = none) :
    (deleteRequest s id).1 = Except.error Err.notFound ∧
    (deleteRequest s id).2 = s ∧
    (updateRequest s id body now).2 = s := by
  refine ⟨?_, ?_, ?_⟩
  · simp [deleteRequest, deleteProduct, getProduct, h]
  · simp [deleteRequest, deleteProduct, getProduct, h]
  · unfold updateRequest
    cases hv : validateUpdateDto body with
    | error e => rfl
    | ok dto => simp [updateProduct, h]

/-- C10 witness: a one-row database, targeting the absent id 2. -/
theorem C10_not_found_leaves_storage_unchanged_witness :
    findOne ⟨[⟨1, "Speaker A1", descSample, 0, 0⟩], 2⟩ 2 = none ∧
    ((deleteRequest ⟨[⟨1, "Speaker A1", descSample, 0, 0⟩], 2⟩ 2).1 =
        Except.error Err.notFound ∧
     (deleteRequest ⟨[⟨1, "Speaker A1", descSample, 0, 0⟩], 2⟩ 2).2 =
        ⟨[⟨1, "Speaker A1", descSample, 0, 0⟩], 2⟩ ∧
     (updateRequest ⟨[⟨1, "Speaker A1", descSample, 0, 0⟩], 2⟩ 2 [] 7).2 =
        ⟨[⟨1, "Speaker A1", descSample, 0, 0⟩], 2⟩) :=
  ⟨rfl, C10_not_found_leaves_storage_unchanged
    ⟨[⟨1, "Speaker A1", descSample, 0, 0⟩], 2⟩ 2 [] 7 rfl⟩

/-- Helper: a body whose `title` field is a string violating a length
bound always produces at least one validation error. -/
lemma createDtoErrors_ne_nil_of_bad_title (body : RawBody) (t : String)
    (ht : getField body "title" = some (JValue.str t))
    (hlen : t.length < 6 ∨ 32 < t.length) :
    createDtoErrors body ≠ [] := by
  unfold createDtoErrors validateStringField
  rw [ht]
  rcases hlen with h | h <;> simp [h, List.append_eq_nil]

/-- Helper: a nonempty error list forces the ValidationPipe to reject
the body with a `ValidationError` carrying those errors. -/
lemma validateCreateDto_of_errors (body : RawBody)
    (h : createDtoErrors body ≠ []) :
    validateCreateDto body = Except.error (Err.validation (createDtoErrors body)) := by
  unfold validateCreateDto
  rw [if_neg h]

/-- C4: a CreateInput whose title is shorter than 6 or longer than 32
characters is rejected with a ValidationError, no record is persisted
(the state is returned unchanged), and the outcome is independent of
the storage state — validation runs before any storage access. -/
theorem C4_bad_title_create_rejected (s s' : Storage) (body : RawBody)
    (now : Nat) (t : String)
    (ht : getField body "title" = some (JValue.str t))
    (hlen : t.length < 6 ∨ 32 < t.length) :
    (createRequest s body now).1 =
      Except.error (Err.validation (createDtoErrors body)) ∧
    (createRequest s body now).2 = s ∧
    (createRequest s' body now).1 = (createRequest s body now).1 := by
  have hv := validateCreateDto_of_errors body
    (createDtoErrors_ne_nil_of_bad_title body t ht hlen)
  refine ⟨?_, ?_, ?_⟩ <;> simp [createRequest, hv]

/-- C4 witness: the scenario body with `title = "abc"` (length 3). -/
theorem C4_bad_title_create_rejected_witness :
    (getField [("title", JValue.str "abc"), ("description", JValue.str descSample)]
        "title" = some (JValue.str "abc") ∧
      ("abc".length < 6 ∨ 32 < "abc".length)) ∧
    ((createRequest emptyStorage
        [("title", JValue.str "abc"), ("description", JValue.str descSample)] 0).1 =
      Except.error (Err.validation (createDtoErrors
        [("title", JValue.str "abc"), ("description", JValue.str descSample)])) ∧
     (createRequest emptyStorage
        [("title", JValue.str "abc"), ("description", JValue.str descSample)] 0).2 =
      emptyStorage ∧
     (createRequest ⟨[], 5⟩
        [("title", JValue.str "abc"), ("description", JValue.str descSample)] 0).1 =
      (createRequest emptyStorage
        [("title", JValue.str "abc"), ("description", JValue.str descSample)] 0).1) :=
  ⟨⟨rfl, by decide⟩,
    C4_bad_title_create_rejected emptyStorage ⟨[], 5⟩
      [("title", JValue.str "abc"), ("description", JValue.str descSample)]
      0 "abc" rfl (by decide)⟩

/-- C9: a Create or Update body containing a field not declared on the
DTO fails with a ValidationError that names the offending field, and
the storage state is left unchanged — the field is neither silently
ignored nor persisted. -/
theorem C9_unknown_field_rejected (s s' : Storage) (id : Nat)
    (body : RawBody) (now : Nat) (k : String) (v : JValue)
    (hmem : (k, v) ∈ body) (hk : allowedFields.contains k = false) :
    (k, VReason.unknownProperty) ∈ createDtoErrors body ∧
    (createRequest s body now).1 =
      Except.error (Err.validation (createDtoErrors body)) ∧
    (createRequest s body now).2 = s ∧
    (updateRequest s' id body now).1 =
      Except.error (Err.validation (createDtoErrors body)) ∧
    (updateRequest s' id body now).2 = s' := by
  have hmemw : (k, VReason.unknownProperty) ∈ whitelistErrors body := by
    unfold whitelistErrors
    refine List.mem_map.mpr ⟨(k, v), ?_, rfl⟩
    refine List.mem_filter.mpr ⟨hmem, ?_⟩
    simpa using hk
  have hmemc : (k, VReason.unknownProperty) ∈ createDtoErrors body := by
    unfold createDtoErrors
    exact List.mem_append_left _ (List.mem_append_left _ hmemw)
  have hne : createDtoErrors body ≠ [] := List.ne_nil_of_mem hmemc
  have hv := validateCreateDto_of_errors body hne
  have hvu : validateUpdateDto body =
      Except.error (Err.validation (createDtoErrors body)) := hv
  refine ⟨hmemc, ?_, ?_, ?_, ?_⟩ <;>
    simp [createRequest, updateRequest, hv, hvu]

/-- C9 witness: a body with an undeclared `price` field. -/
theorem C9_unknown_field_rejected_witness :
    (("price", JValue.num 99) ∈
        [("title", JValue.str "Speaker A1"),
         ("description", JValue.str descSample),
         ("price", JValue.num 99)] ∧
      allowedFields.contains "price" = false) ∧
    (("price", VReason.unknownProperty) ∈ createDtoErrors
        [("title", JValue.str "Speaker A1"),
         ("description", JValue.str descSample),
         ("price", JValue.num 99)] ∧
     (createRequest emptyStorage
        [("title", JValue.str "Speaker A1"),
         ("description", JValue.str descSample),
         ("price", JValue.num 99)] 0).1 =
      Except.error (Err.validation (createDtoErrors
        [("title", JValue.str "Speaker A1"),
         ("description", JValue.str descSample),
         ("price", JValue.num 99)])) ∧
     (createRequest emptyStorage
        [("title", JValue.str "Speaker A1"),
         ("description", JValue.str descSample),
         ("price", JValue.num 99)] 0).2 = emptyStorage ∧
     (updateRequest ⟨[], 3⟩ 1
        [("title", JValue.str "Speaker A1"),
         ("description", JValue.str descSample),
         ("price", JValue.num 99)] 0).1 =
      Except.error (Err.validation (createDtoErrors
        [("title", JValue.str "Speaker A1"),
         ("description", JValue.str descSample),
         ("price", JValue.num 99)])) ∧
     (updateRequest ⟨[], 3⟩ 1
        [("title", JValue.str "Speaker A1"),
         ("description", JValue.str descSample),
         ("price", JValue.num 99)] 0).2 = ⟨[], 3⟩) :=
  ⟨⟨by decide, by decide⟩,
    C9_unknown_field_rejected emptyStorage ⟨[], 3⟩ 1
      [("title", JValue.str "Speaker A1"),
       ("description", JValue.str descSample),
       ("price", JValue.num 99)] 0 "price" (JValue.num 99)
      (by decide) (by decide)⟩

/-- Helper: appending a row whose id is fresh for `rows` makes it the
row found when searching for that id. -/
lemma find?_append_fresh (rows : List Product) (p : Product) (n : Nat)
    (hpn : p.id = n) (h : ∀ q ∈ rows, q.id ≠ n) :
    (rows ++ [p]).find? (fun q => q.id == n) = some p := by
  induction rows with
  | nil => simp [hpn]
  | cons r rs ih =>
      have hr : (r.id == n) = false := by
        simp [h r (List.mem_cons_self r rs)]
      rw [List.cons_append, List.find?_cons, hr]
      exact ih (fun q hq => h q (List.mem_cons_of_mem r hq))

/-- C5: for every valid CreateInput, Create followed by Get of the new
record's id returns exactly the record Create returned, equal in all
fields. -/
theorem C5_create_get_round_trip (s : Storage) (dto : CreateProductDto)
    (now : Nat) (hwf : WF s) :
    getProduct (createProduct s dto now).2 (createProduct s dto now).1.id =
      Except.ok (createProduct s dto now).1 := by
  have hid : ∀ q ∈ s.rows, q.id ≠ s.nextId :=
    fun q hq => Nat.ne_of_lt (hwf.2 q hq)
  unfold createProduct getProduct findOne
  rw [find?_append_fresh s.rows _ s.nextId rfl hid]

/-- C5 witness: creating one product in the empty database at time 5. -/
theorem C5_create_get_round_trip_witness :
    WF emptyStorage ∧
    getProduct (createProduct emptyStorage ⟨"Speaker A1", descSample⟩ 5).2
        (createProduct emptyStorage ⟨"Speaker A1", descSample⟩ 5).1.id =
      Except.ok (createProduct emptyStorage ⟨"Speaker A1", descSample⟩ 5).1 :=
  ⟨by decide,
    C5_create_get_round_trip emptyStorage ⟨"Speaker A1", descSample⟩ 5 (by decide)⟩

/-- Helper: when ids are duplicate-free and the search finds `p`,
filtering away the id removes exactly that one row. -/
lemma perm_cons_filter_of_found (rows : List Product) (id : Nat) (p : Product)
    (hnd : (rows.map Product.id).Nodup)
    (hf : rows.find? (fun q => q.id == id) = some p) :
    rows.Perm (p :: rows.filter (fun q => !(q.id == id))) := by
  induction rows with
  | nil => simp at hf
  | cons r rs ih =>
      rw [List.map_cons, List.nodup_cons] at hnd
      by_cases hr : r.id = id
      · rw [List.find?_cons_of_pos _ (by simp [hr])] at hf
        have hpr : p = r := by cases hf; rfl
        subst hpr
        have hfil : rs.filter (fun q => !(q.id == id)) = rs := by
          refine List.filter_eq_self.mpr ?_
          intro q hq
          have hqr : q.id ≠ id := by
            intro hqid
            refine hnd.1 ?_
            have hm : q.id ∈ List.map Product.id rs :=
              List.mem_map_of_mem Product.id hq
            rw [hqid, ← hr] at hm
            exact hm
          simp [hqr]
        rw [List.filter_cons_of_neg, hfil]
        simp [hr]
      · rw [List.find?_cons_of_neg _ (by simp [hr])] at hf
        have hperm := ih hnd.2 hf
        rw [List.filter_cons_of_pos]
        · exact (hperm.cons r).trans (List.Perm.swap p r _)
        · simp [hr]

/-- C6: for an id with an existing record, Delete behaves as Get
followed by removing that exact record: it returns the record Get
returns with all fields intact (including the id), the new state is the
old rows with exactly that record removed, and the id is absent from
storage afterward. -/
theorem C6_delete_is_get_then_remove (s : Storage) (id : Nat) (p : Product)
    (hwf : WF s) (h : getProduct s id = Except.ok p) :
    deleteProduct s id =
      (Except.ok p, ⟨s.rows.filter (fun q => !(q.id == id)), s.nextId⟩) ∧
    p.id = id ∧
    s.rows.Perm (p :: s.rows.filter (fun q => !(q.id == id))) ∧
    getProduct ⟨s.rows.filter (fun q => !(q.id == id)), s.nextId⟩ id =
      Except.error Err.notFound := by
  have hfind : findOne s id = some p := by
    unfold getProduct at h
    cases hf : findOne s id with
    | none => rw [hf] at h; cases h
    | some q => rw [hf] at h; cases h; rfl
  refine ⟨?_, ?_, ?_, ?_⟩
  · simp [deleteProduct, getProduct, hfind]
  · have := List.find?_some hfind
    simpa using this
  · exact perm_cons_filter_of_found s.rows id p hwf.1 hfind
  · unfold getProduct findOne
    have hnone : (s.rows.filter (fun q => !(q.id == id))).find?
        (fun q => q.id == id) = none := by
      refine List.find?_eq_none.mpr ?_
      intro q hq
      have := (List.mem_filter.mp hq).2
      simpa using this
    rw [hnone]

/-- C6 witness: a one-row database, deleting id 1. -/
theorem C6_delete_is_get_then_remove_witness :
    (WF ⟨[⟨1, "Speaker A1", descSample, 3, 4⟩], 2⟩ ∧
      getProduct ⟨[⟨1, "Speaker A1", descSample, 3, 4⟩], 2⟩ 1 =
        Except.ok ⟨1, "Speaker A1", descSample, 3, 4⟩) ∧
    (deleteProduct ⟨[⟨1, "Speaker A1", descSample, 3, 4⟩], 2⟩ 1 =
      (Except.ok ⟨1, "Speaker A1", descSample, 3, 4⟩,
        ⟨([⟨1, "Speaker A1", descSample, 3, 4⟩] : List Product).filter
          (fun q => !(q.id == 1)), 2⟩) ∧
     Product.id ⟨1, "Speaker A1", descSample, 3, 4⟩ = 1 ∧
     ([⟨1, "Speaker A1", descSample, 3, 4⟩] : List Product).Perm
       (⟨1, "Speaker A1", descSample, 3, 4⟩ ::
         ([⟨1, "Speaker A1", descSample, 3, 4⟩] : List Product).filter
           (fun q => !(q.id == 1))) ∧
     getProduct ⟨([⟨1, "Speaker A1", descSample, 3, 4⟩] : List Product).filter
         (fun q => !(q.id == 1)), 2⟩ 1 = Except.error Err.notFound) :=
  ⟨⟨by decide, rfl⟩,
    C6_delete_is_get_then_remove ⟨[⟨1, "Speaker A1", descSample, 3, 4⟩], 2⟩ 1
      ⟨1, "Speaker A1", descSample, 3, 4⟩ (by decide) rfl⟩

/-- Helper: a field whose validator reports no error is present, is a
string, and satisfies both length bounds. -/
lemma validateStringField_nil (body : RawBody) (name : String) (lo hi : Nat)
    (h : validateStringField body name lo hi = []) :
    ∃ t, getField body name = some (JValue.str t) ∧
      lo ≤ t.length ∧ t.length ≤ hi := by
  unfold validateStringField at h
  cases hg : getField body name with
  | none => rw [hg] at h; exact absurd h (by simp)
  | some v =>
      cases v with
      | str t =>
          rw [hg, List.append_eq_nil] at h
          have h1 := h.1
          have h2 := h.2
          refine ⟨t, rfl, ?_, ?_⟩
          · by_cases hlt : t.length < lo
            · rw [if_pos hlt] at h1; exact absurd h1 (by simp)
            · omega
          · by_cases hgt : hi < t.length
            · rw [if_pos hgt] at h2; exact absurd h2 (by simp)
            · omega
      | num n => rw [hg] at h; exact absurd h (by simp)
      | boolean b => rw [hg] at h; exact absurd h (by simp)
      | null => rw [hg] at h; exact absurd h (by simp)

/-- Helper: a DTO accepted by the ValidationPipe satisfies both length
bounds of the declared constraints. -/
lemma validateCreateDto_ok_bounds (body : RawBody) (dto : CreateProductDto)
    (h : validateCreateDto body = Except.ok dto) :
    6 ≤ dto.title.length ∧ dto.title.length ≤ 32 ∧
    32 ≤ dto.description.length ∧ dto.description.length ≤ 1024 := by
  unfold validateCreateDto at h
  by_cases herrs : createDtoErrors body = []
  · rw [if_pos herrs] at h
    simp only [createDtoErrors, List.append_eq_nil] at herrs
    obtain ⟨t, hgt, ht1, ht2⟩ :=
      validateStringField_nil body "title" 6 32 herrs.1.2
    obtain ⟨d, hgd, hd1, hd2⟩ :=
      validateStringField_nil body "description" 32 1024 herrs.2
    rw [hgt, hgd] at h
    cases h
    exact ⟨ht1, ht2, hd1, hd2⟩
  · rw [if_neg herrs] at h
    cases h

/-- C8: every state reachable from the empty database by serving
requests under a nondecreasing server clock satisfies the data-model
invariant: every persisted row has a title of length 6–32, a
description of length 32–1024, and updated_at ≥ created_at; List, Get,
Create, Update and Delete all preserve it. -/
theorem C8_reachable_invariant (s : Storage) (hr : Reachable s) : Inv s := by
  induction hr with
  | empty => intro p hp; simp [emptyStorage] at hp
  | step hs hck ih =>
      rename_i s' op
      cases op with
      | list => exact ih
      | get id => exact ih
      | create body now =>
          simp only [applyOp]
          cases hv : validateCreateDto body with
          | error e => simpa [createRequest, hv] using ih
          | ok dto =>
              obtain ⟨h1, h2, h3, h4⟩ := validateCreateDto_ok_bounds body dto hv
              simp only [createRequest, hv, createProduct]
              intro p hp
              simp only [List.mem_append, List.mem_singleton] at hp
              rcases hp with hmem | hmem
              · exact ih p hmem
              · subst hmem
                exact ⟨h1, h2, h3, h4, le_refl now⟩
      | update id body now =>
          simp only [applyOp]
          cases hv : validateUpdateDto body with
          | error e => simpa [updateRequest, hv] using ih
          | ok dto =>
              obtain ⟨h1, h2, h3, h4⟩ := validateCreateDto_ok_bounds body dto hv
              simp only [updateRequest, hv]
              cases hf : findOne s' id with
              | none => simpa [updateProduct, hf] using ih
              | some q =>
                  simp only [updateProduct, hf]
                  intro p hp
                  simp only [List.mem_map] at hp
                  rcases hp with ⟨r, hrmem, hre⟩
                  by_cases hcond : (r.id == id) = true
                  · rw [if_pos hcond] at hre
                    subst hre
                    have hq : q ∈ s'.rows := List.mem_of_find?_eq_some hf
                    have hclock : q.created_at ≤ now := hck q hq
                    exact ⟨h1, h2, h3, h4, hclock⟩
                  · rw [if_neg hcond] at hre
                    subst hre
                    exact ih r hrmem
      | del id =>
          simp only [applyOp, deleteRequest, deleteProduct]
          cases hg : getProduct s' id with
          | error e => exact ih
          | ok p =>
              intro q hq
              exact ih q (List.mem_of_mem_filter hq)

/-- C8 witness: one create request served on the empty database. -/
theorem C8_reachable_invariant_witness :
    Inv (applyOp emptyStorage
      (Op.create [("title", JValue.str "Speaker A1"),
                  ("description", JValue.str descSample)] 5)) :=
  C8_reachable_invariant _ (Reachable.step Reachable.empty True.intro)

end Audiophile
